import Mathlib

/-!
Verification of `bot.py` (WelcomeBotGruppo): a Telegram registration bot that
collects a name and an email in a two-step conversation, validates the email
with a regular expression, and appends the record to a Google Sheet.

The development shallowly embeds the program:
* the email validator `is_valid_email` (regex
  `^[a-zA-Z0-9._%+-]+@[a-zA-Z0-9.-]+\.[a-zA-Z]{2,}$` matched with `re.match`,
  whose `$` also matches just before one trailing newline);
* the store adapter `save_to_google_sheet`, with the external gspread calls
  modelled by an outcome environment (each call either succeeds or raises);
* the conversation handlers `start`, `get_name`, `get_email`, `cancel` and
  the `ConversationHandler` dispatch, as a step function on bot states.
-/

namespace WelcomeBot

/-! ## Email validator (`is_valid_email`, bot.py lines 113-116) -/

/-- Characters matched by `[a-zA-Z]` (ASCII letters). -/
def isAsciiAlpha (c : Char) : Bool :=
  ('A' ≤ c && c ≤ 'Z') || ('a' ≤ c && c ≤ 'z')

/-- Characters matched by `[0-9]` (ASCII digits). -/
def isAsciiDigit (c : Char) : Bool :=
  '0' ≤ c && c ≤ '9'

/-- Characters matched by the local-part class `[a-zA-Z0-9._%+-]`. -/
def isLocalChar (c : Char) : Bool :=
  isAsciiAlpha c || isAsciiDigit c ||
    c == '.' || c == '_' || c == '%' || c == '+' || c == '-'

/-- Characters matched by the domain class `[a-zA-Z0-9.-]`. -/
def isDomainChar (c : Char) : Bool :=
  isAsciiAlpha c || isAsciiDigit c || c == '.' || c == '-'

/-- Matches `\.[a-zA-Z]{2,}` against the whole remaining input: a dot followed
by at least two ASCII letters, consuming everything to the end. -/
def matchTldAt : List Char → Bool
  | [] => false
  | c :: t => c == '.' && t.all isAsciiAlpha && decide (2 ≤ t.length)

/-- Matches `[a-zA-Z0-9.-]+\.[a-zA-Z]{2,}` against the whole input `ds`:
some split point `k ≥ 1` has `ds.take k` a nonempty run of domain characters
and the rest of the string a final `.label` part. -/
def matchDomain (ds : List Char) : Bool :=
  (List.range ds.length).any fun k =>
    decide (1 ≤ k) && (ds.take k).all isDomainChar && matchTldAt (ds.drop k)

/-- Matches `@` followed by the domain pattern, consuming the whole input. -/
def matchAfterLocal : List Char → Bool
  | [] => false
  | c :: ds => c == '@' && matchDomain ds

/-- Matches the full regex body `[a-zA-Z0-9._%+-]+@[a-zA-Z0-9.-]+\.[a-zA-Z]{2,}`
against exactly the whole input `cs` (anchored at both ends): some split point
`i ≥ 1` has `cs.take i` a nonempty run of local-part characters and the rest
an `@domain.tld` part reaching the end of the input. -/
def matchEmailExact (cs : List Char) : Bool :=
  (List.range cs.length).any fun i =>
    decide (1 ≤ i) && (cs.take i).all isLocalChar && matchAfterLocal (cs.drop i)

/-- Embeds `is_valid_email` (bot.py 113-116):
`re.match(r'^[a-zA-Z0-9._%+-]+@[a-zA-Z0-9.-]+\.[a-zA-Z]{2,}$', email) is not None`.
`re.match` anchors at the start of the string; without `re.MULTILINE` the
final `$` matches at the end of the string or just before a newline at the
end of the string, so the regex also accepts a match followed by exactly one
trailing `'\n'`. -/
def is_valid_email (email : String) : Bool :=
  matchEmailExact email.toList ||
    (email.toList.getLast? == some '\n' && matchEmailExact email.toList.dropLast)

/-- Modelled from the spec: the validator relation the specification describes,
a full-string (anchored at both ends) match of
`[A-Za-z0-9._%+-]+@[A-Za-z0-9.-]+\.[A-Za-z]{2,}`, with no concession for a
trailing newline. Used to compare the spec's words with the code. -/
def emailSpecFullMatch (s : String) : Bool :=
  matchEmailExact s.toList

/-- Declarative shape of a string matching the email pattern as a whole:
`local@domain.tld` with a nonempty local part over `[A-Za-z0-9._%+-]`, a
nonempty domain part over `[A-Za-z0-9.-]`, and a final label of at least two
ASCII letters. -/
def EmailShape (cs : List Char) : Prop :=
  ∃ l d t, cs = l ++ '@' :: (d ++ '.' :: t) ∧
    l ≠ [] ∧ (∀ c ∈ l, isLocalChar c = true) ∧
    d ≠ [] ∧ (∀ c ∈ d, isDomainChar c = true) ∧
    2 ≤ t.length ∧ (∀ c ∈ t, isAsciiAlpha c = true)

/-! ## Record store adapter (`save_to_google_sheet`, bot.py lines 47-86)

The external gspread worksheet is modelled as a list of rows of cells; the
worksheet's value area holds strings and numbers, so a cell is either. The
gspread calls the function performs can each raise; the possible raising
behaviour of the external library is an input (`Env`), one outcome per call
in program order. -/

/-- Value stored in one worksheet cell: gspread accepts strings and numbers
(the code appends three strings and the integer Telegram user id). -/
inductive Cell
  | str : String → Cell
  | int : Int → Cell
deriving DecidableEq, Repr

/-- The worksheet value area, as a list of rows in sheet order. -/
abbrev Sheet := List (List Cell)

/-- Whether a cell holds no value (an empty-string cell is an empty cell in
the worksheet model; `sheet.get` omits it). -/
def cellIsEmpty : Cell → Bool
  | .str s => s == ""
  | .int _ => false

/-- Embeds the check `not sheet.get('A1')` (bot.py 63): gspread's
`get('A1')` returns an empty list exactly when cell A1 holds no value, i.e.
when the value area has no first row, or its first row has no first cell, or
that cell is empty. -/
def a1Empty : Sheet → Bool
  | [] => true
  | [] :: _ => true
  | (c :: _) :: _ => cellIsEmpty c

/-- Embeds `sheet.append_row(row)`: the Sheets `values.append` call adds the
row after the existing content of the value area. -/
def append_row (s : Sheet) (row : List Cell) : Sheet :=
  s ++ [row]

/-- The fixed header row the code writes (bot.py 64). -/
def headersRow : List Cell :=
  [Cell.str "Nome Cognome", Cell.str "Email", Cell.str "ID Telegram",
   Cell.str "Data Registrazione"]

/-- Modelled from the spec: the header row the specification quotes
(`["Full Name", "Email", "Platform User ID", "Registration Date"]`), for
comparison with what the code writes. -/
def headersSpecRow : List Cell :=
  [Cell.str "Full Name", Cell.str "Email", Cell.str "Platform User ID",
   Cell.str "Registration Date"]

/-- A local wall-clock instant, as the fields `datetime.now()` exposes.
`datetime` guarantees `1 ≤ year ≤ 9999`, `1 ≤ month ≤ 12`, `1 ≤ day ≤ 31`,
`hour ≤ 23`, `minute ≤ 59`, `second ≤ 59`. -/
structure PyDateTime where
  year : Nat
  month : Nat
  day : Nat
  hour : Nat
  minute : Nat
  second : Nat
deriving DecidableEq, Repr

/-- The decimal digit character for `d` (`d ≤ 9`; larger arguments are
clamped, which never occurs for in-range `datetime` fields). -/
def digitChar : Nat → Char
  | 0 => '0' | 1 => '1' | 2 => '2' | 3 => '3' | 4 => '4'
  | 5 => '5' | 6 => '6' | 7 => '7' | 8 => '8' | _ => '9'

/-- Two-digit zero-padded decimal, as `%m`, `%d`, `%H`, `%M`, `%S` render the
(always two-digit-bounded) `datetime` fields. -/
def pad2 (n : Nat) : List Char :=
  [digitChar (n / 10), digitChar (n % 10)]

/-- Four-digit zero-padded decimal, as `%Y` renders the year. -/
def pad4 (n : Nat) : List Char :=
  [digitChar (n / 1000), digitChar (n / 100 % 10), digitChar (n / 10 % 10),
   digitChar (n % 10)]

/-- Embeds `datetime.now().strftime("%Y-%m-%d %H:%M:%S")` (bot.py 73) applied
to the instant `t`. -/
def strftime_now (t : PyDateTime) : String :=
  String.mk (pad4 t.year ++ '-' :: pad2 t.month ++ '-' :: pad2 t.day ++
    ' ' :: pad2 t.hour ++ ':' :: pad2 t.minute ++ ':' :: pad2 t.second)

/-- The `user_info` dict built by `get_email` (bot.py 150-154): keys
`name`, `email`, `user_id`. -/
structure UserInfo where
  name : String
  email : String
  user_id : Int
deriving DecidableEq, Repr

/-- The data row `new_row` the code appends for a record (bot.py 69-74). -/
def recordRow (info : UserInfo) (now : PyDateTime) : List Cell :=
  [Cell.str info.name, Cell.str info.email, Cell.int info.user_id,
   Cell.str (strftime_now now)]

/-- Classification of a raised Python exception by the three handlers at the
function boundary (bot.py 78-86): `gspread.exceptions.SpreadsheetNotFound`,
`gspread.exceptions.APIError`, and the catch-all `Exception`. -/
inductive PyExc
  | spreadsheetNotFound
  | apiError
  | other
deriving DecidableEq, Repr

/-- Outcome environment for one invocation of the adapter: for each external
call in program order, `none` means the call succeeds and `some e` means it
raises an exception of class `e`. A raising call performs no mutation. -/
structure Env where
  credsR : Option PyExc
  authR : Option PyExc
  openR : Option PyExc
  getR : Option PyExc
  appendHeaderR : Option PyExc
  appendRowR : Option PyExc
deriving DecidableEq, Repr

/-- Environment in which every external call succeeds. -/
def envAllOk : Env :=
  ⟨none, none, none, none, none, none⟩

/-- Embeds the `try` body of `save_to_google_sheet` (bot.py 51-77): build
credentials, authorize, open the sheet by key, check `A1`, append the header
when `A1` is empty, append the data row. Returns the sheet state after the
calls that ran and the exception that escaped the body, if any. -/
def save_body (env : Env) (sheet : Sheet) (info : UserInfo) (now : PyDateTime) :
    Sheet × Option PyExc :=
  match env.credsR with
  | some e => (sheet, some e)
  | none =>
  match env.authR with
  | some e => (sheet, some e)
  | none =>
  match env.openR with
  | some e => (sheet, some e)
  | none =>
  match env.getR with
  | some e => (sheet, some e)
  | none =>
  if a1Empty sheet then
    match env.appendHeaderR with
    | some e => (sheet, some e)
    | none =>
      let sheet1 := append_row sheet headersRow
      match env.appendRowR with
      | some e => (sheet1, some e)
      | none => (append_row sheet1 (recordRow info now), none)
  else
    match env.appendRowR with
    | some e => (sheet, some e)
    | none => (append_row sheet (recordRow info now), none)

/-- Embeds `save_to_google_sheet` (bot.py 47-86): the `try` body wrapped by
the three `except` handlers, each of which logs and returns `False`; the body
returns `True` on reaching the end. The result pairs the returned boolean
with the final sheet state. -/
def save_to_google_sheet (env : Env) (sheet : Sheet) (info : UserInfo)
    (now : PyDateTime) : Bool × Sheet :=
  match save_body env sheet info now with
  | (s, none) => (true, s)
  | (s, some .spreadsheetNotFound) => (false, s)
  | (s, some .apiError) => (false, s)
  | (s, some .other) => (false, s)

/-- Success condition of one adapter invocation: every call that the control
flow reaches succeeds (the header append is only reached when A1 is empty). -/
def envOk (env : Env) (sheet : Sheet) : Prop :=
  env.credsR = none ∧ env.authR = none ∧ env.openR = none ∧ env.getR = none ∧
    (a1Empty sheet = true → env.appendHeaderR = none) ∧ env.appendRowR = none

instance (env : Env) (sheet : Sheet) : Decidable (envOk env sheet) := by
  unfold envOk; infer_instance

/-- Number of rows of a sheet equal to the fixed header row. -/
def countHeaders (s : Sheet) : Nat :=
  s.countP (fun r => r == headersRow)

/-- Runs the adapter once per record over a list of (record, instant) pairs,
with every external call succeeding, starting from `sheet`. -/
def runAll (ps : List (UserInfo × PyDateTime)) (sheet : Sheet) : Sheet :=
  ps.foldl (fun sh p => (save_to_google_sheet envAllOk sh p.1 p.2).2) sheet

/-- Modelled from the spec: the shape `YYYY-MM-DD HH:MM:SS` — nineteen
characters, decimal digits in the `0` slots of the mask and the literal
separator elsewhere. -/
def tsMask : List Char := "0000-00-00 00:00:00".toList

/-- Modelled from the spec: whether a string has the `YYYY-MM-DD HH:MM:SS`
shape. -/
def isTimestampShape (s : String) : Bool :=
  s.toList.length == tsMask.length &&
    (s.toList.zip tsMask).all fun p =>
      if p.2 == '0' then isAsciiDigit p.1 else p.1 == p.2

/-! ## Conversation flow (bot.py lines 121-179 and the `ConversationHandler`
wiring in `main`, lines 190-197)

The `ConversationHandler` has entry point `/start`, states `GET_NAME` and
`GET_EMAIL` each bound to plain-text non-command messages, and fallback
`/cancel`; re-entry is not enabled, so `/start` during an active conversation
matches no handler. `context.user_data` is modelled by its two used keys. -/

/-- Conversation position: `idle` is "no active conversation"
(`ConversationHandler.END`); `get_name` and `get_email` are the two states
`GET_NAME` and `GET_EMAIL` (bot.py 42). -/
inductive ConvState
  | idle
  | get_name
  | get_email
deriving DecidableEq, Repr

/-- The per-user `context.user_data` dict, restricted to the two keys the
program uses; `none` models an absent key. -/
structure UserData where
  name : Option String
  email : Option String
deriving DecidableEq, Repr

/-- Embeds `context.user_data.clear()` (bot.py 171, 178). -/
def UserData.clear (_ : UserData) : UserData :=
  ⟨none, none⟩

/-- An outbound reply: its text and, when an `InlineKeyboardButton` is
attached, the button's URL. -/
structure Msg where
  text : String
  buttonUrl : Option String
deriving DecidableEq, Repr

/-- An incoming Telegram update, as the handler wiring distinguishes them:
the `/start` command (carrying the sender's first name), a plain non-command
text message, the `/cancel` command, or anything else (other commands,
non-text content), which no registered handler matches. -/
inductive Event
  | startCmd (firstName : String)
  | textMsg (text : String)
  | cancelCmd
  | otherEvent
deriving DecidableEq, Repr

/-- Greeting sent by `start` (bot.py 124-128). -/
def greetingText (firstName : String) : String :=
  "👋 Ciao " ++ firstName ++ " e benvenuto/a!\n\n" ++
  "Per accedere al nostro gruppo esclusivo, ho bisogno di qualche informazione.\n\n" ++
  "Per favore, inviami il tuo <b>Nome e Cognome</b>."

/-- Prompt sent by `get_name` (bot.py 136). -/
def askEmailText : String :=
  "Grazie! Ora, per favore, inviami il tuo <b>indirizzo email</b>."

/-- Re-prompt sent by `get_email` on a malformed address (bot.py 144). -/
def invalidEmailText : String :=
  "⚠️ L\x27indirizzo email non sembra valido. Per favore, controlla e riprova."

/-- Success reply sent by `get_email` (bot.py 160-164); the attached button
carries `GROUP_INVITE_LINK`. -/
def successText : String :=
  "✅ Ottimo! Registrazione completata.\n\n" ++
  "Clicca sul pulsante qui sotto per accedere al gruppo esclusivo. Ti aspettiamo!"

/-- Failure reply sent by `get_email` (bot.py 166-169). -/
def failureText : String :=
  "❌ Si è verificato un problema tecnico durante la registrazione. " ++
  "Il nostro team è stato notificato. Per favore, riprova più tardi."

/-- Cancellation reply sent by `cancel` (bot.py 177). -/
def cancelText : String :=
  "Operazione annullata. Se cambi idea, scrivimi /start."

/-- Embeds the `start` handler (bot.py 121-129): greet and move to
`GET_NAME`; `user_data` is untouched. -/
def start_handler (firstName : String) : ConvState × List Msg :=
  (.get_name, [⟨greetingText firstName, none⟩])

/-- Embeds the `get_name` handler (bot.py 132-137): store the message text
under key `name`, ask for the email, move to `GET_EMAIL`. -/
def get_name_handler (ud : UserData) (text : String) :
    UserData × ConvState × List Msg :=
  ({ ud with name := some text }, .get_email, [⟨askEmailText, none⟩])

/-- Embeds the `get_email` handler (bot.py 140-172). On an invalid address:
re-prompt and stay in `GET_EMAIL`, touching nothing. On a valid one: store
the text under key `email`, read `user_data['name']` (`none` result models
the `KeyError` the subscript would raise when the key is absent), build
`user_info`, call the store adapter, reply according to its boolean, clear
`user_data`, and end the conversation. -/
def get_email_handler (link : String) (env : Env) (now : PyDateTime)
    (uid : Int) (ud : UserData) (text : String) (sheet : Sheet) :
    Option (UserData × ConvState × Sheet × List Msg) :=
  if is_valid_email text = false then
    some (ud, .get_email, sheet, [⟨invalidEmailText, none⟩])
  else
    let ud1 : UserData := { ud with email := some text }
    match ud1.name with
    | none => none
    | some nm =>
      let info : UserInfo := ⟨nm, text, uid⟩
      let res := save_to_google_sheet env sheet info now
      let ms : List Msg :=
        if res.1 then [⟨successText, some link⟩] else [⟨failureText, none⟩]
      some (ud1.clear, .idle, res.2, ms)

/-- Embeds the `cancel` handler (bot.py 175-179): notify, clear `user_data`,
end the conversation. -/
def cancel_handler (ud : UserData) : UserData × ConvState × List Msg :=
  (ud.clear, .idle, [⟨cancelText, none⟩])

/-- Bot state between updates: the conversation position and the per-user
data. -/
structure BotState where
  conv : ConvState
  userData : UserData
deriving DecidableEq, Repr

/-- Embeds the `ConversationHandler` dispatch (bot.py 190-197) for one
incoming update: `/start` is an entry point, so it fires only with no active
conversation (re-entry is not enabled); each state's `MessageHandler` is
bound to `filters.TEXT & ~filters.COMMAND`; `/cancel` is a fallback, usable
from any active state; every other update matches no handler and is ignored.
Returns `none` when the dispatched handler raises (the `KeyError` case of
`get_email`); otherwise the new bot state, the new sheet state, and the
replies sent. -/
def step (link : String) (env : Env) (now : PyDateTime) (uid : Int)
    (ev : Event) (st : BotState) (sheet : Sheet) :
    Option (BotState × Sheet × List Msg) :=
  match st.conv, ev with
  | .idle, .startCmd fn =>
      let r := start_handler fn
      some (⟨r.1, st.userData⟩, sheet, r.2)
  | .get_name, .textMsg t =>
      let r := get_name_handler st.userData t
      some (⟨r.2.1, r.1⟩, sheet, r.2.2)
  | .get_email, .textMsg t =>
      match get_email_handler link env now uid st.userData t sheet with
      | none => none
      | some (ud, c, sh, ms) => some (⟨c, ud⟩, sh, ms)
  | .get_name, .cancelCmd =>
      let r := cancel_handler st.userData
      some (⟨r.2.1, r.1⟩, sheet, r.2.2)
  | .get_email, .cancelCmd =>
      let r := cancel_handler st.userData
      some (⟨r.2.1, r.1⟩, sheet, r.2.2)
  | _, _ => some (st, sheet, [])

/-- Bot states reachable from process start (no active conversation, empty
`user_data`) by any sequence of updates, under any link configuration, store
environments, instants, and senders. -/
inductive Reachable : BotState → Prop
  | start : Reachable ⟨.idle, ⟨none, none⟩⟩
  | next : ∀ (st st' : BotState) (link : String) (env : Env) (now : PyDateTime)
      (uid : Int) (ev : Event) (sheet sh : Sheet) (ms : List Msg),
      Reachable st →
      step link env now uid ev st sheet = some (st', sh, ms) →
      Reachable st'

/-- Sample instant, used to evaluate the model at concrete inputs. -/
def dt0 : PyDateTime :=
  ⟨2025, 10, 12, 9, 30, 0⟩

/-- Sample registration data, used to evaluate the model at concrete
inputs. -/
def info0 : UserInfo :=
  ⟨"Maria Rossi", "maria@example.com", 7⟩

/-- Environment in which opening the spreadsheet by key raises
`SpreadsheetNotFound` and every other call would succeed. -/
def envNotFound : Env :=
  ⟨none, none, some .spreadsheetNotFound, none, none, none⟩

/-! ## Helper lemmas -/

theorem matchTldAt_iff (cs : List Char) :
    matchTldAt cs = true ↔
      ∃ t, cs = '.' :: t ∧ 2 ≤ t.length ∧ ∀ c ∈ t, isAsciiAlpha c = true := by
  cases cs with
  | nil => simp [matchTldAt]
  | cons c t =>
    simp only [matchTldAt, Bool.and_eq_true, beq_iff_eq, decide_eq_true_eq,
      List.all_eq_true]
    constructor
    · rintro ⟨⟨hc, ht⟩, hlen⟩
      exact ⟨t, by rw [hc], hlen, ht⟩
    · rintro ⟨t', ht', hlen, hall⟩
      injection ht' with hc ht
      subst hc; subst ht
      exact ⟨⟨rfl, hall⟩, hlen⟩

theorem matchDomain_iff (ds : List Char) :
    matchDomain ds = true ↔
      ∃ d t, ds = d ++ '.' :: t ∧ d ≠ [] ∧
        (∀ c ∈ d, isDomainChar c = true) ∧
        2 ≤ t.length ∧ (∀ c ∈ t, isAsciiAlpha c = true) := by
  simp only [matchDomain, List.any_eq_true, List.mem_range, Bool.and_eq_true,
    decide_eq_true_eq]
  constructor
  · rintro ⟨k, hk, ⟨h1, hdom⟩, htld⟩
    obtain ⟨t, hdrop, hlen, hall⟩ := (matchTldAt_iff _).mp htld
    refine ⟨ds.take k, t, ?_, ?_, ?_, hlen, hall⟩
    · conv_lhs => rw [← List.take_append_drop k ds]
      rw [hdrop]
    · intro h
      have := congrArg List.length h
      rw [List.length_take] at this
      simp only [List.length_nil] at this
      omega
    · exact fun c hc => (List.all_eq_true.mp hdom) c hc
  · rintro ⟨d, t, rfl, hd, hdom, hlen, hall⟩
    refine ⟨d.length, ?_, ⟨?_, ?_⟩, ?_⟩
    · simp only [List.length_append, List.length_cons]
      omega
    · cases d with
      | nil => exact absurd rfl hd
      | cons _ _ => simp
    · rw [List.take_left]
      exact List.all_eq_true.mpr hdom
    · rw [List.drop_left]
      exact (matchTldAt_iff _).mpr ⟨t, rfl, hlen, hall⟩

theorem matchEmailExact_iff (cs : List Char) :
    matchEmailExact cs = true ↔ EmailShape cs := by
  simp only [matchEmailExact, List.any_eq_true, List.mem_range, Bool.and_eq_true,
    decide_eq_true_eq, EmailShape]
  constructor
  · rintro ⟨i, hi, ⟨h1, hloc⟩, hrest⟩
    cases hdrop : cs.drop i with
    | nil => rw [hdrop] at hrest; simp [matchAfterLocal] at hrest
    | cons c ds =>
      rw [hdrop] at hrest
      simp only [matchAfterLocal, Bool.and_eq_true, beq_iff_eq] at hrest
      obtain ⟨rfl, hdomain⟩ := hrest
      obtain ⟨d, t, hds, hd, hdom, hlen, hall⟩ := (matchDomain_iff _).mp hdomain
      refine ⟨cs.take i, d, t, ?_, ?_, ?_, hd, hdom, hlen, hall⟩
      · conv_lhs => rw [← List.take_append_drop i cs]
        rw [hdrop, hds]
      · intro h
        have := congrArg List.length h
        rw [List.length_take] at this
        simp only [List.length_nil] at this
        omega
      · exact fun c hc => (List.all_eq_true.mp hloc) c hc
  · rintro ⟨l, d, t, rfl, hl, hloc, hd, hdom, hlen, hall⟩
    refine ⟨l.length, ?_, ⟨?_, ?_⟩, ?_⟩
    · simp only [List.length_append, List.length_cons]
      omega
    · cases l with
      | nil => exact absurd rfl hl
      | cons _ _ => simp
    · rw [List.take_left]
      exact List.all_eq_true.mpr hloc
    · rw [List.drop_left]
      simp only [matchAfterLocal, Bool.and_eq_true, beq_iff_eq]
      exact ⟨trivial, (matchDomain_iff _).mpr ⟨d, t, rfl, hd, hdom, hlen, hall⟩⟩

theorem save_to_google_sheet_fst (env : Env) (sheet : Sheet) (info : UserInfo)
    (now : PyDateTime) :
    (save_to_google_sheet env sheet info now).1 = true ↔
      (save_body env sheet info now).2 = none := by
  unfold save_to_google_sheet
  rcases hb : save_body env sheet info now with ⟨s, o⟩
  cases o with
  | none => simp
  | some e => cases e <;> simp

theorem save_body_snd_none_iff (env : Env) (sheet : Sheet) (info : UserInfo)
    (now : PyDateTime) :
    (save_body env sheet info now).2 = none ↔ envOk env sheet := by
  rcases env with ⟨c, a, o, g, ah, ar⟩
  unfold save_body envOk
  by_cases hA : a1Empty sheet <;>
    rcases c with _ | e₁ <;> rcases a with _ | e₂ <;> rcases o with _ | e₃ <;>
    rcases g with _ | e₄ <;> rcases ah with _ | e₅ <;> rcases ar with _ | e₆ <;>
    simp [hA]

theorem save_allOk (sheet : Sheet) (info : UserInfo) (now : PyDateTime) :
    save_to_google_sheet envAllOk sheet info now =
      (true, (if a1Empty sheet then sheet ++ [headersRow] else sheet) ++
        [recordRow info now]) := by
  unfold save_to_google_sheet save_body envAllOk append_row
  by_cases hA : a1Empty sheet <;> simp [hA]

theorem get_email_handler_invalid (link : String) (env : Env)
    (now : PyDateTime) (uid : Int) (ud : UserData) (text : String)
    (sheet : Sheet) (h : is_valid_email text = false) :
    get_email_handler link env now uid ud text sheet =
      some (ud, .get_email, sheet, [⟨invalidEmailText, none⟩]) := by
  simp [get_email_handler, h]

theorem get_email_handler_valid (link : String) (env : Env)
    (now : PyDateTime) (uid : Int) (ud : UserData) (text : String)
    (sheet : Sheet) (nm : String) (h : is_valid_email text = true)
    (hn : ud.name = some nm) :
    get_email_handler link env now uid ud text sheet =
      some (⟨none, none⟩, .idle,
        (save_to_google_sheet env sheet ⟨nm, text, uid⟩ now).2,
        if (save_to_google_sheet env sheet ⟨nm, text, uid⟩ now).1 then
          [⟨successText, some link⟩] else [⟨failureText, none⟩]) := by
  simp [get_email_handler, h, hn, UserData.clear]

theorem get_email_handler_noName (link : String) (env : Env)
    (now : PyDateTime) (uid : Int) (ud : UserData) (text : String)
    (sheet : Sheet) (h : is_valid_email text = true) (hn : ud.name = none) :
    get_email_handler link env now uid ud text sheet = none := by
  simp [get_email_handler, h, hn]

/-- Reachability invariant: with no active conversation the session data is
empty, and in `GET_EMAIL` the `name` key is always present. -/
theorem reachable_invariant (st : BotState) (h : Reachable st) :
    (st.conv = .idle → st.userData = ⟨none, none⟩) ∧
    (st.conv = .get_email → ∃ nm, st.userData.name = some nm) := by
  induction h with
  | start => exact ⟨fun _ => rfl, fun hc => by simp at hc⟩
  | next st st' link env now uid ev sheet sh ms hr hstep ih =>
    obtain ⟨conv, ud⟩ := st
    cases conv with
    | idle =>
      cases ev with
      | startCmd fn =>
        simp only [step, start_handler, Option.some.injEq] at hstep
        obtain ⟨rfl, -, -⟩ := hstep
        exact ⟨fun hc => by simp at hc, fun hc => by simp at hc⟩
      | textMsg t =>
        simp only [step, Option.some.injEq] at hstep
        obtain ⟨rfl, -, -⟩ := hstep
        exact ih
      | cancelCmd =>
        simp only [step, Option.some.injEq] at hstep
        obtain ⟨rfl, -, -⟩ := hstep
        exact ih
      | otherEvent =>
        simp only [step, Option.some.injEq] at hstep
        obtain ⟨rfl, -, -⟩ := hstep
        exact ih
    | get_name =>
      cases ev with
      | startCmd fn =>
        simp only [step, Option.some.injEq] at hstep
        obtain ⟨rfl, -, -⟩ := hstep
        exact ih
      | textMsg t =>
        simp only [step, get_name_handler, Option.some.injEq] at hstep
        obtain ⟨rfl, -, -⟩ := hstep
        exact ⟨fun hc => by simp at hc, fun _ => ⟨t, rfl⟩⟩
      | cancelCmd =>
        simp only [step, cancel_handler, UserData.clear, Option.some.injEq] at hstep
        obtain ⟨rfl, -, -⟩ := hstep
        exact ⟨fun _ => rfl, fun hc => by simp at hc⟩
      | otherEvent =>
        simp only [step, Option.some.injEq] at hstep
        obtain ⟨rfl, -, -⟩ := hstep
        exact ih
    | get_email =>
      cases ev with
      | startCmd fn =>
        simp only [step, Option.some.injEq] at hstep
        obtain ⟨rfl, -, -⟩ := hstep
        exact ih
      | textMsg t =>
        by_cases hv : is_valid_email t = false
        · rw [show step link env now uid (.textMsg t) ⟨.get_email, ud⟩ sheet =
              some (⟨.get_email, ud⟩, sheet, [⟨invalidEmailText, none⟩]) from by
            simp only [step]
            rw [get_email_handler_invalid link env now uid ud t sheet hv]] at hstep
          obtain ⟨rfl, -, -⟩ := Option.some.injEq .. ▸ hstep
          exact ih
        · rw [Bool.not_eq_false] at hv
          obtain ⟨nm, hn⟩ := ih.2 rfl
          rw [show step link env now uid (.textMsg t) ⟨.get_email, ud⟩ sheet =
              some (⟨.idle, ⟨none, none⟩⟩,
                (save_to_google_sheet env sheet ⟨nm, t, uid⟩ now).2,
                if (save_to_google_sheet env sheet ⟨nm, t, uid⟩ now).1 then
                  [⟨successText, some link⟩] else [⟨failureText, none⟩]) from by
            simp only [step]
            rw [get_email_handler_valid link env now uid ud t sheet nm hv hn]] at hstep
          obtain ⟨rfl, -, -⟩ := Option.some.injEq .. ▸ hstep
          exact ⟨fun _ => rfl, fun hc => by simp at hc⟩
      | cancelCmd =>
        simp only [step, cancel_handler, UserData.clear, Option.some.injEq] at hstep
        obtain ⟨rfl, -, -⟩ := hstep
        exact ⟨fun _ => rfl, fun hc => by simp at hc⟩
      | otherEvent =>
        simp only [step, Option.some.injEq] at hstep
        obtain ⟨rfl, -, -⟩ := hstep
        exact ih

theorem isAsciiDigit_digitChar (d : Nat) : isAsciiDigit (digitChar d) = true := by
  unfold digitChar
  split <;> decide

theorem isTimestampShape_strftime (t : PyDateTime) :
    isTimestampShape (strftime_now t) = true := by
  simp [isTimestampShape, strftime_now, tsMask, pad4, pad2, String.toList,
    isAsciiDigit_digitChar]

theorem save_envOk (env : Env) (sheet : Sheet) (info : UserInfo)
    (now : PyDateTime) (h : envOk env sheet) :
    save_to_google_sheet env sheet info now =
      (true, (if a1Empty sheet then sheet ++ [headersRow] else sheet) ++
        [recordRow info now]) := by
  obtain ⟨h1, h2, h3, h4, h5, h6⟩ := h
  unfold save_to_google_sheet save_body append_row
  rw [h1, h2, h3, h4]
  by_cases hA : a1Empty sheet
  · rw [h5 hA, h6]
    simp [hA]
  · rw [h6]
    simp [hA]

theorem a1Empty_append (s : Sheet) (x : Sheet) (hs : s ≠ []) :
    a1Empty (s ++ x) = a1Empty s := by
  cases s with
  | nil => exact absurd rfl hs
  | cons r l => cases r <;> rfl

theorem a1Empty_header_cons (rest : Sheet) :
    a1Empty (headersRow :: rest) = false := by
  simp [a1Empty, headersRow, cellIsEmpty]

theorem recordRow_ne_headersRow (info : UserInfo) (now : PyDateTime) :
    (recordRow info now == headersRow) = false := by
  simp [recordRow, headersRow]

theorem countHeaders_append_record (s : Sheet) (info : UserInfo)
    (now : PyDateTime) :
    countHeaders (s ++ [recordRow info now]) = countHeaders s := by
  unfold countHeaders
  rw [List.countP_append]
  simp [List.countP_cons, recordRow_ne_headersRow]

theorem runAll_no_header (ps : List (UserInfo × PyDateTime)) :
    ∀ s : Sheet, a1Empty s = false →
      runAll ps s = s ++ ps.map fun q => recordRow q.1 q.2 := by
  induction ps with
  | nil => intro s _; simp [runAll]
  | cons q qs ih =>
    intro s hA
    have hs : s ≠ [] := by
      intro h
      rw [h] at hA
      exact absurd hA (by decide)
    have hstep : (save_to_google_sheet envAllOk s q.1 q.2).2 =
        s ++ [recordRow q.1 q.2] := by
      rw [save_allOk, hA]
      simp
    show runAll (q :: qs) s = _
    unfold runAll
    rw [List.foldl_cons]
    have : runAll qs (save_to_google_sheet envAllOk s q.1 q.2).2 =
        (save_to_google_sheet envAllOk s q.1 q.2).2 ++
          qs.map fun q => recordRow q.1 q.2 := by
      apply ih
      rw [hstep, a1Empty_append s _ hs, hA]
    rw [show (List.foldl (fun sh p => (save_to_google_sheet envAllOk sh p.1 p.2).2)
        (save_to_google_sheet envAllOk s q.1 q.2).2 qs) =
        runAll qs (save_to_google_sheet envAllOk s q.1 q.2).2 from rfl]
    rw [this, hstep]
    simp

/-! ## Claim theorems -/

/-- C1, counterexample. The claim says `isValidEmail` returns true only for
strings matching the pattern as a whole (anchored at both ends). The string
"a@b.co\n" does not match the pattern as a whole (a newline is in no
character class of the pattern), yet `is_valid_email` returns true for it,
because Python's `$` also matches just before a trailing newline. -/
theorem is_valid_email_trailing_newline_counterexample :
    is_valid_email "a@b.co\n" = true ∧ emailSpecFullMatch "a@b.co\n" = false :=
  ⟨by decide, by decide⟩

/-- C1, amended. `is_valid_email` returns true exactly when the string
matches `local@domain.tld` — nonempty local part over `[A-Za-z0-9._%+-]`,
nonempty domain over `[A-Za-z0-9.-]`, final label of 2+ ASCII letters — as a
whole, or is such a match followed by exactly one trailing newline; it is
total and returns false on the empty string. -/
theorem is_valid_email_iff_shape_up_to_trailing_newline :
    (∀ s : String, is_valid_email s = true ↔
      (EmailShape s.toList ∨ ∃ t, s.toList = t ++ ['\n'] ∧ EmailShape t)) ∧
    is_valid_email "" = false := by
  refine ⟨?_, by decide⟩
  intro s
  unfold is_valid_email
  rw [Bool.or_eq_true, Bool.and_eq_true, matchEmailExact_iff, beq_iff_eq,
    matchEmailExact_iff]
  constructor
  · rintro (h | ⟨hl, hsh⟩)
    · exact Or.inl h
    · exact Or.inr ⟨s.toList.dropLast,
        (List.dropLast_append_getLast? _ hl).symm, hsh⟩
  · rintro (h | ⟨t, ht, hsh⟩)
    · exact Or.inl h
    · refine Or.inr ⟨?_, ?_⟩
      · rw [ht]; simp
      · rw [ht]; simpa using hsh

/-- C2. The store adapter always returns a boolean: true exactly when every
external call it reaches succeeds, and false whenever the body raised any
exception (each of the three recognized categories is absorbed by its
handler and becomes `false` — nothing propagates to the caller). -/
theorem save_to_google_sheet_boolean_boundary (env : Env) (sheet : Sheet)
    (info : UserInfo) (now : PyDateTime) :
    ((save_to_google_sheet env sheet info now).1 = true ↔ envOk env sheet) ∧
    (∀ e : PyExc, (save_body env sheet info now).2 = some e →
      (save_to_google_sheet env sheet info now).1 = false) := by
  have h := save_to_google_sheet_fst env sheet info now
  refine ⟨h.trans (save_body_snd_none_iff env sheet info now), ?_⟩
  intro e he
  cases hb : (save_to_google_sheet env sheet info now).1
  · rfl
  · have hnone := h.mp hb
    rw [hnone] at he
    cases he

/-- C2, witness: with the spreadsheet-not-found environment the adapter
returns false rather than raising. -/
theorem save_to_google_sheet_boolean_boundary_witness :
    (save_to_google_sheet envNotFound [] info0 dt0).1 = false :=
  (save_to_google_sheet_boolean_boundary envNotFound [] info0 dt0).2
    .spreadsheetNotFound rfl

/-- C3, counterexample. The claim quantifies over every starting sheet
state. Starting from a sheet whose cell A1 is empty but whose first row has
content elsewhere (here B1 = "x"), the first run appends the header after
the existing content, so A1 stays empty, and the second run appends a second
header row: two successful runs add two header rows. -/
theorem header_double_write_counterexample :
    countHeaders [[Cell.str "", Cell.str "x"]] = 0 ∧
    countHeaders
      (runAll [(info0, dt0), (⟨"Anna", "anna@example.com", 8⟩, dt0)]
        [[Cell.str "", Cell.str "x"]]) = 2 := by
  constructor
  · decide
  · decide

/-- C3, amended. For every starting sheet that is empty or whose cell A1 is
non-empty, running the header-check-then-append sequence twice in succession
writes the header at most once: the second run appends only the data row (its
header step is a no-op), and at most one header row is added in total. -/
theorem header_second_run_noop (sheet : Sheet) (info1 info2 : UserInfo)
    (now1 now2 : PyDateTime) (h : sheet = [] ∨ a1Empty sheet = false) :
    (save_to_google_sheet envAllOk
        (save_to_google_sheet envAllOk sheet info1 now1).2 info2 now2).2 =
      (save_to_google_sheet envAllOk sheet info1 now1).2 ++
        [recordRow info2 now2] ∧
    countHeaders
      (save_to_google_sheet envAllOk
        (save_to_google_sheet envAllOk sheet info1 now1).2 info2 now2).2 ≤
      countHeaders sheet + 1 := by
  rcases h with rfl | hA
  · have h1 : (save_to_google_sheet envAllOk [] info1 now1).2 =
        [headersRow, recordRow info1 now1] := by
      simp [save_allOk, a1Empty]
    have hA1 : a1Empty [headersRow, recordRow info1 now1] = false :=
      a1Empty_header_cons _
    have h2 : (save_to_google_sheet envAllOk
        [headersRow, recordRow info1 now1] info2 now2).2 =
        [headersRow, recordRow info1 now1] ++ [recordRow info2 now2] := by
      simp [save_allOk, hA1]
    rw [h1, h2]
    refine ⟨rfl, ?_⟩
    simp [countHeaders, List.countP_cons, recordRow_ne_headersRow]
  · have hs : sheet ≠ [] := by
      intro h0
      rw [h0] at hA
      exact absurd hA (by decide)
    have h1 : (save_to_google_sheet envAllOk sheet info1 now1).2 =
        sheet ++ [recordRow info1 now1] := by
      simp [save_allOk, hA]
    have hA1 : a1Empty (sheet ++ [recordRow info1 now1]) = false := by
      rw [a1Empty_append sheet _ hs]
      exact hA
    rw [h1]
    have h2 : (save_to_google_sheet envAllOk
        (sheet ++ [recordRow info1 now1]) info2 now2).2 =
        (sheet ++ [recordRow info1 now1]) ++ [recordRow info2 now2] := by
      simp [save_allOk, hA1]
    rw [h2]
    refine ⟨rfl, ?_⟩
    rw [countHeaders_append_record, countHeaders_append_record]
    exact Nat.le_succ _

/-- C3, witness for the amended theorem at a sheet with non-empty A1. -/
theorem header_second_run_noop_witness :
    (save_to_google_sheet envAllOk
        (save_to_google_sheet envAllOk [[Cell.str "x"]] info0 dt0).2
        info0 dt0).2 =
      (save_to_google_sheet envAllOk [[Cell.str "x"]] info0 dt0).2 ++
        [recordRow info0 dt0] ∧
    countHeaders
      (save_to_google_sheet envAllOk
        (save_to_google_sheet envAllOk [[Cell.str "x"]] info0 dt0).2
        info0 dt0).2 ≤
      countHeaders [[Cell.str "x"]] + 1 :=
  header_second_run_noop [[Cell.str "x"]] info0 info0 dt0 dt0
    (Or.inr (by decide))

/-- C4, counterexample. When the header is written to an empty sheet, row 1
is the code's fixed header (Italian labels), which differs from the header
row the claim quotes (`["Full Name", "Email", "Platform User ID",
"Registration Date"]`). -/
theorem header_content_counterexample :
    (save_to_google_sheet envAllOk [] info0 dt0).2.head? = some headersRow ∧
    headersRow ≠ headersSpecRow := by
  constructor
  · decide
  · decide

/-- C4, amended. Whenever the adapter writes the header (A1 was empty), the
row it writes is exactly the fixed header `["Nome Cognome", "Email",
"ID Telegram", "Data Registrazione"]`, and starting from an empty sheet a
sequence of successful appends yields that header in row 1 followed by the
registration records in append order. -/
theorem header_content_and_append_order :
    (∀ (sheet : Sheet) (info : UserInfo) (now : PyDateTime),
      a1Empty sheet = true →
      (save_to_google_sheet envAllOk sheet info now).2 =
        sheet ++ [headersRow, recordRow info now]) ∧
    (∀ (p : UserInfo × PyDateTime) (ps : List (UserInfo × PyDateTime)),
      runAll (p :: ps) [] =
        headersRow :: (p :: ps).map fun q => recordRow q.1 q.2) := by
  constructor
  · intro sheet info now hA
    simp [save_allOk, hA]
  · intro p ps
    have h0 : (save_to_google_sheet envAllOk [] p.1 p.2).2 =
        [headersRow, recordRow p.1 p.2] := by
      simp [save_allOk, a1Empty]
    show runAll (p :: ps) [] = _
    unfold runAll
    rw [List.foldl_cons]
    rw [show List.foldl
        (fun sh q => (save_to_google_sheet envAllOk sh q.1 q.2).2)
        (save_to_google_sheet envAllOk [] p.1 p.2).2 ps =
        runAll ps (save_to_google_sheet envAllOk [] p.1 p.2).2 from rfl]
    rw [h0, runAll_no_header ps _ (a1Empty_header_cons _)]
    simp

/-- C4, witness for the amended theorem at an empty sheet. -/
theorem header_content_and_append_order_witness :
    (save_to_google_sheet envAllOk [] info0 dt0).2 =
      [] ++ [headersRow, recordRow info0 dt0] :=
  header_content_and_append_order.1 [] info0 dt0 rfl

/-- C10. Header presence is decided solely by cell A1: whenever A1 holds any
non-empty value (even one different from the fixed header) no header row is
written and the data row is appended after the existing content; the header
is written exactly when A1 is empty. -/
theorem header_presence_decided_by_a1 (sheet : Sheet) (info : UserInfo)
    (now : PyDateTime) :
    (a1Empty sheet = false →
      (save_to_google_sheet envAllOk sheet info now).2 =
        sheet ++ [recordRow info now]) ∧
    (a1Empty sheet = true →
      (save_to_google_sheet envAllOk sheet info now).2 =
        sheet ++ [headersRow, recordRow info now]) := by
  constructor
  · intro hA
    simp [save_allOk, hA]
  · intro hA
    simp [save_allOk, hA]

/-- C10, witness at a sheet whose A1 holds "x", a value different from the
fixed header: only the data row is appended. -/
theorem header_presence_decided_by_a1_witness :
    (save_to_google_sheet envAllOk [[Cell.str "x"]] info0 dt0).2 =
      [[Cell.str "x"]] ++ [recordRow info0 dt0] :=
  (header_presence_decided_by_a1 [[Cell.str "x"]] info0 dt0).1 (by decide)

/-- C5. On any text message received in `GET_EMAIL` that the validator
rejects, the flow replies with the error re-prompt, the bot state is
entirely unchanged (so the collected name is kept and the state remains
`GET_EMAIL`, allowing unlimited retries), and the sheet is untouched (no
store write). -/
theorem invalid_email_reprompt_no_side_effects (link : String) (env : Env)
    (now : PyDateTime) (uid : Int) (st : BotState) (sheet : Sheet) (e : String)
    (hst : st.conv = .get_email) (he : is_valid_email e = false) :
    step link env now uid (.textMsg e) st sheet =
      some (st, sheet, [⟨invalidEmailText, none⟩]) := by
  rcases st with ⟨conv, ud⟩
  cases conv with
  | idle => simp at hst
  | get_name => simp at hst
  | get_email =>
    simp only [step]
    rw [get_email_handler_invalid link env now uid ud e sheet he]

/-- C5, witness: scenario B, name "Luca" collected, email "not-valid". -/
theorem invalid_email_reprompt_no_side_effects_witness :
    step "https://t.me/group" envAllOk dt0 7 (.textMsg "not-valid")
        ⟨.get_email, ⟨some "Luca", none⟩⟩ [] =
      some (⟨.get_email, ⟨some "Luca", none⟩⟩, [],
        [⟨invalidEmailText, none⟩]) :=
  invalid_email_reprompt_no_side_effects "https://t.me/group" envAllOk dt0 7
    ⟨.get_email, ⟨some "Luca", none⟩⟩ [] "not-valid" rfl (by decide)

/-- C6. Session data is cleared on every terminal transition: any step that
ends an active conversation (successful storage, storage failure, or
cancellation) leaves empty user data, and every reachable state with no
active conversation has empty user data, so a fresh start begins with an
empty session. -/
theorem terminal_clears_session :
    (∀ (link : String) (env : Env) (now : PyDateTime) (uid : Int) (ev : Event)
        (st : BotState) (sheet : Sheet) (st' : BotState) (sh : Sheet)
        (ms : List Msg),
      step link env now uid ev st sheet = some (st', sh, ms) →
      st.conv ≠ .idle → st'.conv = .idle → st'.userData = ⟨none, none⟩) ∧
    (∀ st : BotState, Reachable st → st.conv = .idle →
      st.userData = ⟨none, none⟩) := by
  constructor
  · intro link env now uid ev st sheet st' sh ms hstep hne hidle
    rcases st with ⟨conv, ud⟩
    cases conv with
    | idle => exact absurd rfl hne
    | get_name =>
      cases ev with
      | startCmd fn =>
        simp only [step, Option.some.injEq] at hstep
        obtain ⟨rfl, -, -⟩ := hstep
        simp at hidle
      | textMsg t =>
        simp only [step, get_name_handler, Option.some.injEq] at hstep
        obtain ⟨rfl, -, -⟩ := hstep
        simp at hidle
      | cancelCmd =>
        simp only [step, cancel_handler, UserData.clear,
          Option.some.injEq] at hstep
        obtain ⟨rfl, -, -⟩ := hstep
        rfl
      | otherEvent =>
        simp only [step, Option.some.injEq] at hstep
        obtain ⟨rfl, -, -⟩ := hstep
        simp at hidle
    | get_email =>
      cases ev with
      | startCmd fn =>
        simp only [step, Option.some.injEq] at hstep
        obtain ⟨rfl, -, -⟩ := hstep
        simp at hidle
      | textMsg t =>
        by_cases hv : is_valid_email t = false
        · rw [show step link env now uid (.textMsg t) ⟨.get_email, ud⟩ sheet =
              some (⟨.get_email, ud⟩, sheet, [⟨invalidEmailText, none⟩]) from by
            simp only [step]
            rw [get_email_handler_invalid link env now uid ud t sheet hv]]
            at hstep
          obtain ⟨rfl, -, -⟩ := Option.some.injEq .. ▸ hstep
          simp at hidle
        · rw [Bool.not_eq_false] at hv
          cases hn : ud.name with
          | none =>
            rw [show step link env now uid (.textMsg t) ⟨.get_email, ud⟩ sheet =
                none from by
              simp only [step]
              rw [get_email_handler_noName link env now uid ud t sheet hv hn]]
              at hstep
            exact Option.noConfusion hstep
          | some nm =>
            rw [show step link env now uid (.textMsg t) ⟨.get_email, ud⟩ sheet =
                some (⟨.idle, ⟨none, none⟩⟩,
                  (save_to_google_sheet env sheet ⟨nm, t, uid⟩ now).2,
                  if (save_to_google_sheet env sheet ⟨nm, t, uid⟩ now).1 then
                    [⟨successText, some link⟩] else [⟨failureText, none⟩])
                from by
              simp only [step]
              rw [get_email_handler_valid link env now uid ud t sheet nm hv hn]]
              at hstep
            obtain ⟨rfl, -, -⟩ := Option.some.injEq .. ▸ hstep
            rfl
      | cancelCmd =>
        simp only [step, cancel_handler, UserData.clear,
          Option.some.injEq] at hstep
        obtain ⟨rfl, -, -⟩ := hstep
        rfl
      | otherEvent =>
        simp only [step, Option.some.injEq] at hstep
        obtain ⟨rfl, -, -⟩ := hstep
        simp at hidle
  · intro st hr hidle
    exact (reachable_invariant st hr).1 hidle

/-- C6, witness: a cancellation from `GET_EMAIL` with collected data ends in
the idle state with empty session data. -/
theorem terminal_clears_session_witness :
    (BotState.mk .idle ⟨none, none⟩).userData = ⟨none, none⟩ :=
  terminal_clears_session.1 "https://t.me/group" envAllOk dt0 7 .cancelCmd
    ⟨.get_email, ⟨some "Anna", some "anna@example.com"⟩⟩ []
    ⟨.idle, ⟨none, none⟩⟩ [] [⟨cancelText, none⟩] rfl (by decide) rfl

/-- C7. On a successful append (every reached external call succeeds), the
adapter returns true and the row written for the record holds exactly its
four fields in the fixed column order name, email, user id, timestamp, the
timestamp being the instant rendered as `YYYY-MM-DD HH:MM:SS`. -/
theorem success_row_fields_and_timestamp (env : Env) (sheet : Sheet)
    (info : UserInfo) (now : PyDateTime) (h : envOk env sheet) :
    save_to_google_sheet env sheet info now =
      (true, (if a1Empty sheet then sheet ++ [headersRow] else sheet) ++
        [[Cell.str info.name, Cell.str info.email, Cell.int info.user_id,
          Cell.str (strftime_now now)]]) ∧
    isTimestampShape (strftime_now now) = true := by
  refine ⟨?_, isTimestampShape_strftime now⟩
  rw [save_envOk env sheet info now h]
  rfl

/-- C7, witness at an empty sheet with every call succeeding. -/
theorem success_row_fields_and_timestamp_witness :
    save_to_google_sheet envAllOk [] info0 dt0 =
      (true, (if a1Empty ([] : Sheet) then ([] : Sheet) ++ [headersRow]
          else ([] : Sheet)) ++
        [[Cell.str info0.name, Cell.str info0.email, Cell.int info0.user_id,
          Cell.str (strftime_now dt0)]]) ∧
    isTimestampShape (strftime_now dt0) = true :=
  success_row_fields_and_timestamp envAllOk [] info0 dt0 (by decide)

/-- C8. When a valid email ends the conversation, the final reply is decided
only by the adapter's boolean: on true it is the success message whose
attached button carries the configured invite link, on false it is the fixed
generic technical-failure notice with no button — a constant that does not
depend on which failure occurred, so the cause is never revealed. -/
theorem final_reply_depends_only_on_adapter_bool (link : String) (env : Env)
    (now : PyDateTime) (uid : Int) (st : BotState) (sheet : Sheet)
    (e nm : String) (hst : st.conv = .get_email)
    (hn : st.userData.name = some nm) (hv : is_valid_email e = true) :
    step link env now uid (.textMsg e) st sheet =
      some (⟨.idle, ⟨none, none⟩⟩,
        (save_to_google_sheet env sheet ⟨nm, e, uid⟩ now).2,
        if (save_to_google_sheet env sheet ⟨nm, e, uid⟩ now).1 then
          [⟨successText, some link⟩] else [⟨failureText, none⟩]) := by
  rcases st with ⟨conv, ud⟩
  cases conv with
  | idle => simp at hst
  | get_name => simp at hst
  | get_email =>
    simp only [step]
    rw [get_email_handler_valid link env now uid ud e sheet nm hv hn]

/-- C8, witness: scenario C — the store reports spreadsheet-not-found, and
the reply is the generic failure notice with no invite link. -/
theorem final_reply_depends_only_on_adapter_bool_witness :
    step "https://t.me/group" envNotFound dt0 8 (.textMsg "anna@example.com")
        ⟨.get_email, ⟨some "Anna", none⟩⟩ [] =
      some (⟨.idle, ⟨none, none⟩⟩,
        (save_to_google_sheet envNotFound []
          ⟨"Anna", "anna@example.com", 8⟩ dt0).2,
        if (save_to_google_sheet envNotFound []
            ⟨"Anna", "anna@example.com", 8⟩ dt0).1 then
          [⟨successText, some "https://t.me/group"⟩]
        else [⟨failureText, none⟩]) :=
  final_reply_depends_only_on_adapter_bool "https://t.me/group" envNotFound
    dt0 8 ⟨.get_email, ⟨some "Anna", none⟩⟩ [] "anna@example.com" "Anna"
    rfl rfl (by decide)

/-- C9 (implicit). In every reachable `GET_EMAIL` state the session holds a
collected name, so the email handler's lookup never fails: on any text
message the step is defined, and on a valid email (with the store
succeeding) the appended record carries exactly that stored name. -/
theorem get_email_name_present_and_used (st : BotState) (h : Reachable st)
    (hc : st.conv = .get_email) :
    ∃ nm, st.userData.name = some nm ∧
      (∀ (link : String) (env : Env) (now : PyDateTime) (uid : Int)
          (e : String) (sheet : Sheet),
        ∃ r, step link env now uid (.textMsg e) st sheet = some r) ∧
      (∀ (link : String) (now : PyDateTime) (uid : Int) (e : String)
          (sheet : Sheet), is_valid_email e = true →
        step link envAllOk now uid (.textMsg e) st sheet =
          some (⟨.idle, ⟨none, none⟩⟩,
            (if a1Empty sheet then sheet ++ [headersRow] else sheet) ++
              [recordRow ⟨nm, e, uid⟩ now],
            [⟨successText, some link⟩])) := by
  obtain ⟨nm, hn⟩ := (reachable_invariant st h).2 hc
  rcases st with ⟨conv, ud⟩
  cases conv with
  | idle => simp at hc
  | get_name => simp at hc
  | get_email =>
    refine ⟨nm, hn, ?_, ?_⟩
    · intro link env now uid e sheet
      by_cases hv : is_valid_email e = false
      · refine ⟨(⟨.get_email, ud⟩, sheet, [⟨invalidEmailText, none⟩]), ?_⟩
        simp only [step]
        rw [get_email_handler_invalid link env now uid ud e sheet hv]
      · rw [Bool.not_eq_false] at hv
        refine ⟨(⟨.idle, ⟨none, none⟩⟩,
          (save_to_google_sheet env sheet ⟨nm, e, uid⟩ now).2,
          if (save_to_google_sheet env sheet ⟨nm, e, uid⟩ now).1 then
            [⟨successText, some link⟩] else [⟨failureText, none⟩]), ?_⟩
        simp only [step]
        rw [get_email_handler_valid link env now uid ud e sheet nm hv hn]
    · intro link now uid e sheet hv
      simp only [step]
      rw [get_email_handler_valid link envAllOk now uid ud e sheet nm hv hn,
        save_allOk]
      rfl

/-- C9, witness: the `GET_EMAIL` state reached by start followed by the name
message "Luca". -/
theorem get_email_name_present_and_used_witness :
    ∃ nm, (BotState.mk .get_email ⟨some "Luca", none⟩).userData.name =
        some nm ∧
      (∀ (link : String) (env : Env) (now : PyDateTime) (uid : Int)
          (e : String) (sheet : Sheet),
        ∃ r, step link env now uid (.textMsg e)
          ⟨.get_email, ⟨some "Luca", none⟩⟩ sheet = some r) ∧
      (∀ (link : String) (now : PyDateTime) (uid : Int) (e : String)
          (sheet : Sheet), is_valid_email e = true →
        step link envAllOk now uid (.textMsg e)
            ⟨.get_email, ⟨some "Luca", none⟩⟩ sheet =
          some (⟨.idle, ⟨none, none⟩⟩,
            (if a1Empty sheet then sheet ++ [headersRow] else sheet) ++
              [recordRow ⟨nm, e, uid⟩ now],
            [⟨successText, some link⟩])) :=
  get_email_name_present_and_used ⟨.get_email, ⟨some "Luca", none⟩⟩
    (Reachable.next ⟨.get_name, ⟨none, none⟩⟩
      ⟨.get_email, ⟨some "Luca", none⟩⟩ "https://t.me/group" envAllOk dt0 7
      (.textMsg "Luca") [] [] [⟨askEmailText, none⟩]
      (Reachable.next ⟨.idle, ⟨none, none⟩⟩ ⟨.get_name, ⟨none, none⟩⟩
        "https://t.me/group" envAllOk dt0 7 (.startCmd "Luca") [] []
        [⟨greetingText "Luca", none⟩] Reachable.start rfl)
      rfl)
    rfl

end WelcomeBot
